import Mathlib

/-!
Verification development for the Petal workflow engine
(`src/lily/petal/...`).  The Python source is shallowly embedded: each
Python class/function used by a property is translated into a Lean
definition of the same name (module paths become namespaces, leading
underscores are dropped where Lean style prefers it), Python `dict`s
become insertion-ordered association lists, raised exceptions become
`Except.error`, and mutable state becomes explicit state passing.
Filesystem and logging side effects (run directories, structlog calls)
carry no data used by any property and are not modelled.
-/

namespace Petal

/-- The Petal state-value universe (`executor/types.py` `StateValue`):
strings, ints, booleans, `None`, lists and string-keyed dicts.
Python floats only occur as `float` params/results, which no verified
property touches, so no `float` constructor is needed. -/
inductive Value where
  | str (s : String)
  | int (n : Int)
  | bool (b : Bool)
  | null
  | list (xs : List Value)
  | dict (xs : List (String × Value))

/-- Python `dict` membership test on the embedded association list. -/
def dictHas (d : List (String × α)) (k : String) : Bool :=
  d.any (fun p => p.1 == k)

/-- Python `dict` lookup (`d[k]` / `d.get(k)`): the binding for `k`.
`dictSet` keeps at most one binding per key, so the first match is it. -/
def dictGet? (d : List (String × α)) (k : String) : Option α :=
  (d.find? (fun p => p.1 == k)).map (·.2)

/-- Python `dict` write `d[k] = v`: overwrite in place if the key exists
(keeping its position, as CPython dicts do), else append. -/
def dictSet (d : List (String × α)) (k : String) (v : α) : List (String × α) :=
  if dictHas d k then d.map (fun p => if p.1 == k then (k, v) else p)
  else d ++ [(k, v)]

/-- Python `d.update(other)`: fold `dictSet` over `other` in order. -/
def dictUpdate (d other : List (String × α)) : List (String × α) :=
  other.foldl (fun acc p => dictSet acc p.1 p.2) d

/-- Python `'sep'.join(parts)`. -/
def pyJoin (sep : String) : List String → String
  | [] => ""
  | [x] => x
  | x :: xs => x ++ sep ++ pyJoin sep xs

/-- The call returned without raising an exception. -/
def isOkE : Except ε α → Bool
  | .ok _ => true
  | .error _ => false

/-- Python `x in xs` for strings (set or list membership). -/
def pyMem (x : String) : List String → Bool
  | [] => false
  | y :: ys => (y == x) || pyMem x ys

/-- Python `xs.index(x)`: index of the first occurrence (callers
guarantee membership). -/
def pyIndex (x : String) : List String → Nat
  | [] => 0
  | y :: ys => if y == x then 0 else pyIndex x ys + 1

/-- `enums.py` `StepStatus`. -/
inductive StepStatus where
  | pending
  | running
  | completed
  | failed
  | skipped
  | retrying
deriving DecidableEq, Repr

/-- `executor/state.py` `WorkflowState`.  `run_dir` (a filesystem path
used only for I/O) and the logger are not modelled. -/
structure WorkflowState where
  run_id : String
  params : List (String × Value)
  env : List (String × String)
  state : List (String × Value)
  step_status : List (String × StepStatus)
  step_results : List (String × List (String × Value))
  current_step : Option String

namespace WorkflowState

/-- `WorkflowState.__init__`: core engine state starts empty. -/
def init (run_id : String) (params : List (String × Value))
    (env : List (String × String)) : WorkflowState :=
  { run_id := run_id, params := params, env := env,
    state := [], step_status := {}, step_results := [], current_step := none }

/-- `WorkflowState.update`. -/
def update (ws : WorkflowState) (step_id : String)
    (outputs : List (String × Value)) : WorkflowState :=
  { ws with
    state := dictUpdate ws.state outputs,
    step_results := dictSet ws.step_results step_id outputs }

/-- `WorkflowState.set_step_status`. -/
def set_step_status (ws : WorkflowState) (step_id : String)
    (status : StepStatus) : WorkflowState :=
  { ws with
    step_status := dictSet ws.step_status step_id status,
    current_step := if status = StepStatus.running then some step_id else none }

/-- `WorkflowState.get_context`: `{**params, **state, **env}` (later wins). -/
def get_context (ws : WorkflowState) : List (String × Value) :=
  dictUpdate (dictUpdate ws.params ws.state)
    (ws.env.map (fun p => (p.1, Value.str p.2)))

mutual

/-- `WorkflowState._validate_single_value`: rebuilds the value, raising on
unsupported Python types.  On the embedded `Value` type every case is
supported, so the rebuild returns the same structure. -/
def validate_single_value : Value → Value
  | .str s => .str s
  | .int n => .int n
  | .bool b => .bool b
  | .null => .null
  | .list xs => .list (validate_value_list xs)
  | .dict xs => .dict (validate_value_dict xs)

/-- The list comprehension inside `_validate_single_value`. -/
def validate_value_list : List Value → List Value
  | [] => []
  | x :: xs => validate_single_value x :: validate_value_list xs

/-- The dict comprehension inside `_validate_single_value`. -/
def validate_value_dict : List (String × Value) → List (String × Value)
  | [] => []
  | (k, v) :: xs => (k, validate_single_value v) :: validate_value_dict xs

end

/-- `WorkflowState._validate_state_values`: keys are strings by the
embedding's typing; each value is validated. -/
def validate_state_values (data : List (String × Value)) :
    List (String × Value) :=
  data.map (fun p => (p.1, validate_single_value p.2))

/-- `WorkflowState.update_from_tool_result`. -/
def update_from_tool_result (ws : WorkflowState) (step_id : String)
    (tool_result : List (String × Value)) : WorkflowState :=
  update ws step_id (validate_state_values tool_result)

end WorkflowState

/-! ## Executor-side workflow model (`models_strict.py`) -/

/-- `models_strict.py` `Retry`.  `backoff_factor` and `max_delay` only
shape the sleep delays between attempts (wall-clock behaviour that the
embedding does not model), never the control flow; they are carried as
naturals. -/
structure Retry where
  max_attempts : Nat
  backoff_factor : Nat
  max_delay : Nat

/-- `models_strict.py` `BaseStepConfig`.  The tool-specific subclasses
(`DebugEchoStepConfig`, `PythonEvalStepConfig`) add payload fields the
executor itself never reads; tool payloads live in `with_`. -/
structure StepConfig where
  id : String
  uses : String
  reads : List String := []
  writes : List String := []
  «when» : Option String := none
  if_error : String := "fail"
  retry : Option Retry := none
  with_ : List (String × String) := []

/-- `models_strict.py` `PetalFile`. -/
structure PetalFile where
  name : String
  description : Option String := none
  version : String := "0.1"
  params : List (String × Value) := []
  env : List (String × String) := []
  steps : List StepConfig

/-! ## Tool registry and executor (`tool_registry.py`, `executor/core.py`) -/

/-- A registered tool as the executor sees it (`tool_protocol.Tool`):
`execute(context, step)` returns a result dict or raises (`.error`).
The executor tests exercise stateful mock tools (fail twice, then
succeed), so the embedding passes the global invocation counter to
`execute` explicitly; a pure tool ignores it. -/
structure Tool where
  name : String
  execute : Nat → StepConfig → Except String (List (String × Value))

/-- `ToolRegistry.get_tool`, as a name-to-tool lookup. -/
abbrev Registry := String → Option Tool

/-- Executor-side mutable state: the `WorkflowState` plus the count of
tool invocations performed so far (the mock tools' call recorder). -/
structure ExecSt where
  ws : WorkflowState
  calls : Nat

namespace PetalExecutor

/-- One `tool.execute(context, step)` call, recording the invocation. -/
def callTool (tool : Tool) (step : StepConfig) (s : ExecSt) :
    Except String (List (String × Value)) × ExecSt :=
  (tool.execute s.calls step, { s with calls := s.calls + 1 })

/-- `_execute_with_retry`'s tenacity loop
(`stop=stop_after_attempt(max_attempts)`): invoke, return on success,
re-invoke while attempts remain; when the final attempt fails, tenacity
raises a `RetryError` wrapping the last exception.  The exponential
backoff sleeps affect only timing and are not modelled. -/
def retryCall (tool : Tool) (step : StepConfig) :
    Nat → ExecSt → Except String (List (String × Value)) × ExecSt
  | 0, s => (.error "RetryError", s)
  | n + 1, s =>
    match callTool tool step s with
    | (.ok r, s') => (.ok r, s')
    | (.error e, s') =>
      if n = 0 then (.error ("RetryError: " ++ e), s') else retryCall tool step n s'

/-- `PetalExecutor._execute_step`: mark running, look the tool up
(raising `Tool not found` when absent), run it (through the retry loop
when `step.retry` is set), merge its result, mark completed. -/
def execute_step (reg : Registry) (step : StepConfig) (s : ExecSt) :
    Except String Unit × ExecSt :=
  let s := { s with ws := s.ws.set_step_status step.id .running }
  match reg step.uses with
  | none => (.error ("Tool not found: " ++ step.uses), s)
  | some tool =>
    let (res, s') :=
      match step.retry with
      | some rc => retryCall tool step rc.max_attempts s
      | none => callTool tool step s
    match res with
    | .error e => (.error e, s')
    | .ok r =>
      let ws := (s'.ws.update_from_tool_result step.id r).set_step_status
        step.id .completed
      (.ok (), { s' with ws := ws })

/-- The step loop of `PetalExecutor.execute`: each failing step is
handled by its own `if_error` policy — `fail` re-raises, `skip` marks
the step skipped and continues, `retry` (outer policy, unimplemented in
the source) re-raises after a warning, anything else re-raises. -/
def execSteps (reg : Registry) : List StepConfig → ExecSt →
    Except String Unit × ExecSt
  | [], s => (.ok (), s)
  | step :: rest, s =>
    match execute_step reg step s with
    | (.ok (), s') => execSteps reg rest s'
    | (.error e, s') =>
      if step.if_error = "fail" then (.error e, s')
      else if step.if_error = "skip" then
        execSteps reg rest { s' with ws := s'.ws.set_step_status step.id .skipped }
      else if step.if_error = "retry" then (.error e, s')
      else (.error e, s')

/-- The non-dry-run result dict of `PetalExecutor.execute`. -/
structure ExecReport where
  run_id : String
  status : String
  state : List (String × Value)
  step_results : List (String × List (String × Value))

/-- `PetalExecutor.execute` (dry_run=False).  The time-derived `run_id`
and the created run directory are I/O; `run_id` is a parameter here and
the directory is not modelled.  Alongside the report the final engine
state is returned so properties can inspect step statuses and the tool
invocation count. -/
def execute (reg : Registry) (pf : PetalFile) (run_id : String) :
    Except String ExecReport × ExecSt :=
  let s0 : ExecSt := { ws := WorkflowState.init run_id pf.params pf.env, calls := 0 }
  match execSteps reg pf.steps s0 with
  | (.ok (), s) =>
    (.ok { run_id := run_id, status := "completed",
           state := s.ws.state, step_results := s.ws.step_results }, s)
  | (.error e, s) => (.error e, s)

end PetalExecutor

/-! ## Expression language (`expressions.py`)

`ExpressionParser.parse` normalises whitespace, rewrites the Petal
operator spellings into Python ones (`_convert_operators`), parses the
result with CPython's `ast.parse(mode="eval")`, and walks the tree with
an allow-list validator.  The string rewriting and the AST validator are
embedded from the source; `ast.parse` and `eval` are CPython services,
embedded below as a tokenizer/recursive-descent parser and an evaluator
for the expression fragment the grammar admits (names, attribute and
subscript access, calls, `and`/`or`/`not`, comparisons, arithmetic and
bitwise binary operators, numeric/string/bool/None/list literals). -/

/-- Python `\w` on the ASCII inputs involved: `[A-Za-z0-9_]`. -/
def isWordChar (c : Char) : Bool := c.isAlphanum || c = '_'

/-- Python `str.isspace` characters relevant to `str.split()`. -/
def isPySpace (c : Char) : Bool :=
  c = ' ' || c = '\t' || c = '\n' || c = '\r' || c = '\x0b' || c = '\x0c'

/-- Helper for `" ".join(s.split())`: split on whitespace runs.
`cur` holds the reversed current word. -/
def splitWsAux : List Char → List Char → List (List Char)
  | cur, [] => if cur.isEmpty then [] else [cur.reverse]
  | cur, c :: cs =>
    if isPySpace c then
      if cur.isEmpty then splitWsAux [] cs else cur.reverse :: splitWsAux [] cs
    else splitWsAux (c :: cur) cs

/-- Join words with single spaces. -/
def joinWithSpace : List (List Char) → List Char
  | [] => []
  | [w] => w
  | w :: ws => w ++ ' ' :: joinWithSpace ws

/-- `" ".join(expression.split())` — the whitespace normalisation at the
top of `ExpressionParser.parse`. -/
def normWs (s : List Char) : List Char := joinWithSpace (splitWsAux [] s)

/-- Python `str.replace` (all occurrences, leftmost, non-overlapping).
Fuel-driven; `replaceAll` supplies fuel exceeding the input length, and
every step consumes at least one input character (all patterns used are
nonempty), so the fuel never runs out on the inputs fed to it. -/
def replaceAllAux (pat rep : List Char) : Nat → List Char → List Char
  | 0, s => s
  | _ + 1, [] => []
  | fuel + 1, c :: cs =>
    if pat.isPrefixOf (c :: cs) then
      rep ++ replaceAllAux pat rep fuel ((c :: cs).drop pat.length)
    else c :: replaceAllAux pat rep fuel cs

/-- Python `str.replace`. -/
def replaceAll (pat rep s : List Char) : List Char :=
  replaceAllAux pat rep (s.length + 1) s

/-- Python substring membership `pat in s` on character lists. -/
def listContainsSeq (pat : List Char) : List Char → Bool
  | [] => pat.isEmpty
  | c :: cs => pat.isPrefixOf (c :: cs) || listContainsSeq pat cs

/-- Head of a list is a word character. -/
def headIsWord : List Char → Bool
  | [] => false
  | c :: _ => isWordChar c

/-- Python `re.sub(rf"\b{pat}\b", rep, s)` for a pattern made only of
non-word characters (`&&`, `||`): since the pattern's first and last
characters are non-word, the leading `\b` holds exactly when the
preceding character is a word character (so never at the start of the
string) and the trailing `\b` exactly when the following character is a
word character (so never at the end).  `wb` records whether the
previously scanned character was a word character; after a replacement
the last pattern character (non-word) precedes the scan point. -/
def subWordBoundAux (pat rep : List Char) : Bool → Nat → List Char → List Char
  | _, 0, s => s
  | _, _ + 1, [] => []
  | wb, fuel + 1, c :: cs =>
    if pat.isPrefixOf (c :: cs) && wb && headIsWord ((c :: cs).drop pat.length) then
      rep ++ subWordBoundAux pat rep false fuel ((c :: cs).drop pat.length)
    else c :: subWordBoundAux pat rep (isWordChar c) fuel cs

/-- `re.sub(rf"\b{pat}\b", rep, s)` for the all-non-word patterns used. -/
def subWordBound (pat rep s : List Char) : List Char :=
  subWordBoundAux pat rep false (s.length + 1) s

namespace ExpressionParser

/-- `ExpressionParser.OPERATORS`, in the source's (insertion) order. -/
def OPERATORS : List (String × String) :=
  [("&&", "and"), ("||", "or"), ("!", "not"), ("==", "=="), ("!=", "!="),
   ("<", "<"), ("<=", "<="), (">", ">"), (">=", ">="), ("in", "in")]

/-- `ExpressionParser.NAMESPACES`. -/
def NAMESPACES : List String := ["params", "vars", "outputs", "env"]

/-- `ExpressionParser._convert_operators`: word-bounded `re.sub` for
`&&`/`||`, plain `str.replace` for the rest, in `OPERATORS` order. -/
def convert_operators (s : List Char) : List Char :=
  OPERATORS.foldl
    (fun e p =>
      if p.1 = "&&" ∨ p.1 = "||" then subWordBound p.1.data p.2.data e
      else replaceAll p.1.data p.2.data e)
    s

/-- Tokens of the embedded CPython expression tokenizer. -/
inductive Tok where
  | name (s : String)
  | num (n : Nat)
  | strlit (s : String)
  | op (s : String)
deriving DecidableEq, Repr

/-- Read a maximal run satisfying `p`; returns (run, rest). -/
def readRun (p : Char → Bool) : List Char → List Char × List Char
  | [] => ([], [])
  | c :: cs =>
    if p c then
      let (w, r) := readRun p cs
      (c :: w, r)
    else ([], c :: cs)

/-- Value of a run of decimal digits. -/
def natOfDigits (ds : List Char) : Nat :=
  ds.foldl (fun n c => n * 10 + (c.toNat - '0'.toNat)) 0

/-- Read a quoted string literal up to the closing quote `q`
(escape sequences are outside the modelled fragment). -/
def readStrLit (q : Char) : List Char → Option (List Char × List Char)
  | [] => none
  | c :: cs =>
    if c = q then some ([], cs)
    else match readStrLit q cs with
      | some (w, r) => some (c :: w, r)
      | none => none

/-- The CPython tokenizer on the expression fragment: names/keywords,
integer literals, quoted strings, the one- and two-character operator
symbols the grammar uses.  A character outside the fragment (including a
bare `!`, which CPython only accepts as part of `!=`) is a
`SyntaxError`.  Fuel exceeds the input length; every step consumes at
least one character. -/
def tokenizeAux : Nat → List Char → Except String (List Tok)
  | 0, _ => .error "tokenizer fuel exhausted"
  | _ + 1, [] => .ok []
  | fuel + 1, c :: cs =>
    if isPySpace c then tokenizeAux fuel cs
    else if c.isDigit then
      let (d, r) := readRun Char.isDigit (c :: cs)
      (tokenizeAux fuel r).map (Tok.num (natOfDigits d) :: ·)
    else if isWordChar c then
      let (w, r) := readRun isWordChar (c :: cs)
      (tokenizeAux fuel r).map (Tok.name (String.mk w) :: ·)
    else if c = '\'' || c = '"' then
      match readStrLit c cs with
      | some (w, r) => (tokenizeAux fuel r).map (Tok.strlit (String.mk w) :: ·)
      | none => .error "SyntaxError: unterminated string literal"
    else if c = '!' then
      match cs with
      | '=' :: r => (tokenizeAux fuel r).map (Tok.op "!=" :: ·)
      | _ => .error "SyntaxError: invalid character"
    else if c = '=' then
      match cs with
      | '=' :: r => (tokenizeAux fuel r).map (Tok.op "==" :: ·)
      | _ => (tokenizeAux fuel cs).map (Tok.op "=" :: ·)
    else if c = '<' then
      match cs with
      | '=' :: r => (tokenizeAux fuel r).map (Tok.op "<=" :: ·)
      | _ => (tokenizeAux fuel cs).map (Tok.op "<" :: ·)
    else if c = '>' then
      match cs with
      | '=' :: r => (tokenizeAux fuel r).map (Tok.op ">=" :: ·)
      | _ => (tokenizeAux fuel cs).map (Tok.op ">" :: ·)
    else if c = '*' then
      match cs with
      | '*' :: r => (tokenizeAux fuel r).map (Tok.op "**" :: ·)
      | _ => (tokenizeAux fuel cs).map (Tok.op "*" :: ·)
    else if [ '+', '-', '/', '%', '&', '|', '^', '(', ')', '[', ']', ',', '.' ].contains c then
      (tokenizeAux fuel cs).map (Tok.op (String.mk [c]) :: ·)
    else .error "SyntaxError: invalid character"

/-- Tokenize a whole character list. -/
def tokenize (s : List Char) : Except String (List Tok) :=
  tokenizeAux (s.length + 1) s

/-- Comparison operators of the Python AST (`ast.Eq` … `ast.NotIn`). -/
inductive CmpOp where
  | eq | ne | lt | le | gt | ge | isIn | notIn
deriving DecidableEq, Repr

/-- `ast.And` / `ast.Or`. -/
inductive BoolOpK where
  | andOp | orOp
deriving DecidableEq, Repr

/-- Unary operators (`ast.Not`, `ast.USub`, `ast.UAdd`). -/
inductive UnOp where
  | notOp | usub | uadd
deriving DecidableEq, Repr

/-- Binary operators (`ast.Add` … `ast.Pow`, plus the bitwise ones the
grammar can produce; the AST validator rejects the bitwise ones). -/
inductive BinOpK where
  | add | sub | mult | div | mod | pow | bitand | bitor | bitxor
deriving DecidableEq, Repr

/-- The Python expression AST over the fragment the Petal grammar can
reach (`ast.Name`, constants, `ast.List`, `ast.Attribute`,
`ast.Subscript`, `ast.Call`, `ast.BoolOp`, `ast.UnaryOp`, `ast.BinOp`,
`ast.Compare`). -/
inductive PyExpr where
  | name (id : String)
  | numC (n : Nat)
  | strC (s : String)
  | boolC (b : Bool)
  | noneC
  | listE (xs : List PyExpr)
  | attr (v : PyExpr) (a : String)
  | subscript (v : PyExpr) (ix : PyExpr)
  | call (f : PyExpr) (args : List PyExpr)
  | boolop (op : BoolOpK) (vals : List PyExpr)
  | unop (op : UnOp) (v : PyExpr)
  | binop (l : PyExpr) (op : BinOpK) (r : PyExpr)
  | compare (l : PyExpr) (pairs : List (CmpOp × PyExpr))

/-- Python keywords of the fragment that can never be plain `ast.Name`s. -/
def kwList : List String := ["and", "or", "not", "in", "True", "False", "None"]

/-- Parser results: parsed expression and remaining tokens. -/
abbrev PRes := Except String (PyExpr × List Tok)

set_option maxHeartbeats 2000000 in
mutual

/-- `or_expr := and_expr ('or' and_expr)*`; consecutive `or`s flatten
into one `ast.BoolOp` node, as CPython builds them. -/
def parseOrE : Nat → List Tok → PRes
  | 0, _ => .error "SyntaxError: recursion limit"
  | n + 1, ts => do
    let (l, ts) ← parseAndE n ts
    let (more, ts) ← parseOrTail n ts
    .ok (if more.isEmpty then l else .boolop .orOp (l :: more), ts)

def parseOrTail : Nat → List Tok → Except String (List PyExpr × List Tok)
  | 0, _ => .error "SyntaxError: recursion limit"
  | n + 1, Tok.name "or" :: ts => do
    let (r, ts) ← parseAndE n ts
    let (more, ts) ← parseOrTail n ts
    .ok (r :: more, ts)
  | _ + 1, ts => .ok ([], ts)

def parseAndE : Nat → List Tok → PRes
  | 0, _ => .error "SyntaxError: recursion limit"
  | n + 1, ts => do
    let (l, ts) ← parseNotE n ts
    let (more, ts) ← parseAndTail n ts
    .ok (if more.isEmpty then l else .boolop .andOp (l :: more), ts)

def parseAndTail : Nat → List Tok → Except String (List PyExpr × List Tok)
  | 0, _ => .error "SyntaxError: recursion limit"
  | n + 1, Tok.name "and" :: ts => do
    let (r, ts) ← parseNotE n ts
    let (more, ts) ← parseAndTail n ts
    .ok (r :: more, ts)
  | _ + 1, ts => .ok ([], ts)

/-- `not_expr := 'not' not_expr | comparison`. -/
def parseNotE : Nat → List Tok → PRes
  | 0, _ => .error "SyntaxError: recursion limit"
  | n + 1, Tok.name "not" :: ts => do
    let (v, ts) ← parseNotE n ts
    .ok (.unop .notOp v, ts)
  | n + 1, ts => parseCmpE n ts

/-- `comparison := bitor (cmpop bitor)*`, chained comparisons building a
single `ast.Compare` node. -/
def parseCmpE : Nat → List Tok → PRes
  | 0, _ => .error "SyntaxError: recursion limit"
  | n + 1, ts => do
    let (l, ts) ← parseBOrE n ts
    let (pairs, ts) ← parseCmpTail n ts
    .ok (if pairs.isEmpty then l else .compare l pairs, ts)

def parseCmpTail : Nat → List Tok → Except String (List (CmpOp × PyExpr) × List Tok)
  | 0, _ => .error "SyntaxError: recursion limit"
  | n + 1, Tok.op "==" :: ts => parseCmpStep n CmpOp.eq ts
  | n + 1, Tok.op "!=" :: ts => parseCmpStep n CmpOp.ne ts
  | n + 1, Tok.op "<" :: ts => parseCmpStep n CmpOp.lt ts
  | n + 1, Tok.op "<=" :: ts => parseCmpStep n CmpOp.le ts
  | n + 1, Tok.op ">" :: ts => parseCmpStep n CmpOp.gt ts
  | n + 1, Tok.op ">=" :: ts => parseCmpStep n CmpOp.ge ts
  | n + 1, Tok.name "in" :: ts => parseCmpStep n CmpOp.isIn ts
  | n + 1, Tok.name "not" :: Tok.name "in" :: ts => parseCmpStep n CmpOp.notIn ts
  | _ + 1, Tok.name "not" :: _ => .error "SyntaxError: invalid syntax"
  | _ + 1, ts => .ok ([], ts)

/-- One comparison operator followed by its right operand and the rest
of the chain. -/
def parseCmpStep : Nat → CmpOp → List Tok →
    Except String (List (CmpOp × PyExpr) × List Tok)
  | 0, _, _ => .error "SyntaxError: recursion limit"
  | n + 1, op, ts => do
    let (r, ts) ← parseBOrE n ts
    let (more, ts) ← parseCmpTail n ts
    .ok ((op, r) :: more, ts)

def parseBOrE : Nat → List Tok → PRes
  | 0, _ => .error "SyntaxError: recursion limit"
  | n + 1, ts => do
    let (l, ts) ← parseBXorE n ts
    parseBOrTail n l ts

def parseBOrTail : Nat → PyExpr → List Tok → PRes
  | 0, _, _ => .error "SyntaxError: recursion limit"
  | n + 1, l, Tok.op "|" :: ts => do
    let (r, ts) ← parseBXorE n ts
    parseBOrTail n (.binop l .bitor r) ts
  | _ + 1, l, ts => .ok (l, ts)

def parseBXorE : Nat → List Tok → PRes
  | 0, _ => .error "SyntaxError: recursion limit"
  | n + 1, ts => do
    let (l, ts) ← parseBAndE n ts
    parseBXorTail n l ts

def parseBXorTail : Nat → PyExpr → List Tok → PRes
  | 0, _, _ => .error "SyntaxError: recursion limit"
  | n + 1, l, Tok.op "^" :: ts => do
    let (r, ts) ← parseBAndE n ts
    parseBXorTail n (.binop l .bitxor r) ts
  | _ + 1, l, ts => .ok (l, ts)

def parseBAndE : Nat → List Tok → PRes
  | 0, _ => .error "SyntaxError: recursion limit"
  | n + 1, ts => do
    let (l, ts) ← parseArithE n ts
    parseBAndTail n l ts

def parseBAndTail : Nat → PyExpr → List Tok → PRes
  | 0, _, _ => .error "SyntaxError: recursion limit"
  | n + 1, l, Tok.op "&" :: ts => do
    let (r, ts) ← parseArithE n ts
    parseBAndTail n (.binop l .bitand r) ts
  | _ + 1, l, ts => .ok (l, ts)

def parseArithE : Nat → List Tok → PRes
  | 0, _ => .error "SyntaxError: recursion limit"
  | n + 1, ts => do
    let (l, ts) ← parseTermE n ts
    parseArithTail n l ts

def parseArithTail : Nat → PyExpr → List Tok → PRes
  | 0, _, _ => .error "SyntaxError: recursion limit"
  | n + 1, l, Tok.op "+" :: ts => do
    let (r, ts) ← parseTermE n ts
    parseArithTail n (.binop l .add r) ts
  | n + 1, l, Tok.op "-" :: ts => do
    let (r, ts) ← parseTermE n ts
    parseArithTail n (.binop l .sub r) ts
  | _ + 1, l, ts => .ok (l, ts)

def parseTermE : Nat → List Tok → PRes
  | 0, _ => .error "SyntaxError: recursion limit"
  | n + 1, ts => do
    let (l, ts) ← parseFactorE n ts
    parseTermTail n l ts

def parseTermTail : Nat → PyExpr → List Tok → PRes
  | 0, _, _ => .error "SyntaxError: recursion limit"
  | n + 1, l, Tok.op "*" :: ts => do
    let (r, ts) ← parseFactorE n ts
    parseTermTail n (.binop l .mult r) ts
  | n + 1, l, Tok.op "/" :: ts => do
    let (r, ts) ← parseFactorE n ts
    parseTermTail n (.binop l .div r) ts
  | n + 1, l, Tok.op "%" :: ts => do
    let (r, ts) ← parseFactorE n ts
    parseTermTail n (.binop l .mod r) ts
  | _ + 1, l, ts => .ok (l, ts)

/-- `factor := ('+'|'-') factor | power`. -/
def parseFactorE : Nat → List Tok → PRes
  | 0, _ => .error "SyntaxError: recursion limit"
  | n + 1, Tok.op "-" :: ts => do
    let (v, ts) ← parseFactorE n ts
    .ok (.unop .usub v, ts)
  | n + 1, Tok.op "+" :: ts => do
    let (v, ts) ← parseFactorE n ts
    .ok (.unop .uadd v, ts)
  | n + 1, ts => parsePowerE n ts

/-- `power := trailer ['**' factor]` (right-associative). -/
def parsePowerE : Nat → List Tok → PRes
  | 0, _ => .error "SyntaxError: recursion limit"
  | n + 1, ts => do
    let (b, ts) ← parseTrailerE n ts
    match ts with
    | Tok.op "**" :: ts => do
      let (e, ts) ← parseFactorE n ts
      .ok (.binop b .pow e, ts)
    | _ => .ok (b, ts)

/-- Atom followed by trailers `.name`, `(args)`, `[index]`. -/
def parseTrailerE : Nat → List Tok → PRes
  | 0, _ => .error "SyntaxError: recursion limit"
  | n + 1, ts => do
    let (a, ts) ← parseAtomE n ts
    parseTrailerTail n a ts

def parseTrailerTail : Nat → PyExpr → List Tok → PRes
  | 0, _, _ => .error "SyntaxError: recursion limit"
  | n + 1, v, Tok.op "." :: Tok.name a :: ts =>
    if kwList.contains a then .error "SyntaxError: invalid syntax"
    else parseTrailerTail n (.attr v a) ts
  | _ + 1, _, Tok.op "." :: _ => .error "SyntaxError: invalid syntax"
  | n + 1, v, Tok.op "(" :: Tok.op ")" :: ts => parseTrailerTail n (.call v []) ts
  | n + 1, v, Tok.op "(" :: ts => do
    let (args, ts) ← parseArgsE n ts
    parseTrailerTail n (.call v args) ts
  | n + 1, v, Tok.op "[" :: ts => do
    let (ix, ts) ← parseOrE n ts
    match ts with
    | Tok.op "]" :: ts => parseTrailerTail n (.subscript v ix) ts
    | _ => .error "SyntaxError: expected ]"
  | _ + 1, v, ts => .ok (v, ts)

/-- Call arguments `expr (',' expr)* ')'`. -/
def parseArgsE : Nat → List Tok → Except String (List PyExpr × List Tok)
  | 0, _ => .error "SyntaxError: recursion limit"
  | n + 1, ts => do
    let (e, ts) ← parseOrE n ts
    match ts with
    | Tok.op "," :: ts => do
      let (more, ts) ← parseArgsE n ts
      .ok (e :: more, ts)
    | Tok.op ")" :: ts => .ok ([e], ts)
    | _ => .error "SyntaxError: expected , or )"

def parseAtomE : Nat → List Tok → PRes
  | 0, _ => .error "SyntaxError: recursion limit"
  | _ + 1, Tok.name "True" :: ts => .ok (.boolC true, ts)
  | _ + 1, Tok.name "False" :: ts => .ok (.boolC false, ts)
  | _ + 1, Tok.name "None" :: ts => .ok (.noneC, ts)
  | _ + 1, Tok.name s :: ts =>
    if kwList.contains s then .error "SyntaxError: invalid syntax"
    else .ok (.name s, ts)
  | _ + 1, Tok.num k :: ts => .ok (.numC k, ts)
  | _ + 1, Tok.strlit s :: ts => .ok (.strC s, ts)
  | n + 1, Tok.op "(" :: ts => do
    let (e, ts) ← parseOrE n ts
    match ts with
    | Tok.op ")" :: ts => .ok (e, ts)
    | _ => .error "SyntaxError: expected )"
  | _ + 1, Tok.op "[" :: Tok.op "]" :: ts => .ok (.listE [], ts)
  | n + 1, Tok.op "[" :: ts => do
    let (xs, ts) ← parseListEls n ts
    .ok (.listE xs, ts)
  | _ + 1, _ => .error "SyntaxError: invalid syntax"

/-- List display elements `expr (',' expr)* ']'`. -/
def parseListEls : Nat → List Tok → Except String (List PyExpr × List Tok)
  | 0, _ => .error "SyntaxError: recursion limit"
  | n + 1, ts => do
    let (e, ts) ← parseOrE n ts
    match ts with
    | Tok.op "," :: ts => do
      let (more, ts) ← parseListEls n ts
      .ok (e :: more, ts)
    | Tok.op "]" :: ts => .ok ([e], ts)
    | _ => .error "SyntaxError: expected , or ]"

end

/-- `ast.parse(src, mode="eval")`: tokenize, parse one expression,
require all tokens consumed.  The fuel bounds the recursion depth; any
value past the grammar's per-token needs behaves identically, and the
chosen bound is ample for every input considered. -/
def pyParseTokens (ts : List Tok) : Except String PyExpr := do
  let (e, rest) ← parseOrE (16 * (ts.length + 1)) ts
  match rest with
  | [] => .ok e
  | _ => .error "SyntaxError: invalid syntax"

/-- `_validate_bin_op`'s allow-list: basic arithmetic only. -/
def allowedBin : BinOpK → Bool
  | .add | .sub | .mult | .div | .mod | .pow => true
  | .bitand | .bitor | .bitxor => false

mutual

/-- `ExpressionParser._validate_ast` / `_validate_node`: the walk
succeeds iff every node of the tree passes its allow-list check.
Simple `ast.Name` identifiers always pass (`_validate_identifier`'s
dotted-name branch is unreachable: the tokenizer never builds a name
containing a dot); `ast.Attribute` on a plain name requires the name to
be a whitelisted namespace; `ast.Call` always fails; comparison
operators are all in the allowed set; boolean operators are all
allowed; the only allowed unary operator is `not`; binary operators are
restricted to basic arithmetic. -/
def astOK : PyExpr → Bool
  | .name _ => true
  | .numC _ => true
  | .strC _ => true
  | .boolC _ => true
  | .noneC => true
  | .listE xs => astOKList xs
  | .attr v _ =>
    (match v with
     | .name id => NAMESPACES.contains id
     | _ => true) && astOK v
  | .subscript v ix => astOK v && astOK ix
  | .call _ _ => false
  | .boolop _ vals => astOKList vals
  | .unop op v =>
    (match op with
     | .notOp => true
     | _ => false) && astOK v
  | .binop l op r => allowedBin op && astOK l && astOK r
  | .compare l pairs => astOK l && astOKPairs pairs

def astOKList : List PyExpr → Bool
  | [] => true
  | x :: xs => astOK x && astOKList xs

def astOKPairs : List (CmpOp × PyExpr) → Bool
  | [] => true
  | (_, x) :: xs => astOK x && astOKPairs xs

end

mutual

/-- Size of a Python expression tree (an executable `sizeOf`), used as
recursion fuel by the evaluator. -/
def exprSize : PyExpr → Nat
  | .name _ => 1
  | .numC _ => 1
  | .strC _ => 1
  | .boolC _ => 1
  | .noneC => 1
  | .listE xs => 1 + exprSizeList xs
  | .attr v _ => 1 + exprSize v
  | .subscript v ix => 1 + exprSize v + exprSize ix
  | .call f args => 1 + exprSize f + exprSizeList args
  | .boolop _ vals => 1 + exprSizeList vals
  | .unop _ v => 1 + exprSize v
  | .binop l _ r => 1 + exprSize l + exprSize r
  | .compare l pairs => 1 + exprSize l + exprSizePairs pairs

def exprSizeList : List PyExpr → Nat
  | [] => 0
  | x :: xs => 1 + exprSize x + exprSizeList xs

def exprSizePairs : List (CmpOp × PyExpr) → Nat
  | [] => 0
  | (_, x) :: xs => 1 + exprSize x + exprSizePairs xs

end

mutual

/-- The tree contains an `ast.Call` node. -/
def containsCall : PyExpr → Bool
  | .call _ _ => true
  | .name _ => false
  | .numC _ => false
  | .strC _ => false
  | .boolC _ => false
  | .noneC => false
  | .listE xs => containsCallList xs
  | .attr v _ => containsCall v
  | .subscript v ix => containsCall v || containsCall ix
  | .boolop _ vals => containsCallList vals
  | .unop _ v => containsCall v
  | .binop l _ r => containsCall l || containsCall r
  | .compare l pairs => containsCall l || containsCallPairs pairs

def containsCallList : List PyExpr → Bool
  | [] => false
  | x :: xs => containsCall x || containsCallList xs

def containsCallPairs : List (CmpOp × PyExpr) → Bool
  | [] => false
  | (_, x) :: xs => containsCall x || containsCallPairs xs

end

/-- The syntactic half of `ExpressionParser.parse`: the emptiness check
(`not expression or not expression.strip()`), whitespace normalisation,
`_convert_operators`, and `ast.parse(python_expr, mode="eval")`. -/
def parseSyntax (expression : String) : Except String PyExpr :=
  let cs := expression.data
  if cs.all isPySpace then .error "Expression cannot be empty"
  else do
    let toks ← tokenize (convert_operators (normWs cs))
    pyParseTokens toks

/-- `ExpressionParser.parse`: syntax, then `_validate_ast`.  Raised
`ExpressionError`s become `.error`; only the raised/not-raised
distinction (not the message text) is verified, and the per-instance
compiled-expression cache is transparent to the result. -/
def parse (expression : String) : Except String PyExpr := do
  let tree ← parseSyntax expression
  if astOK tree then .ok tree
  else .error "ExpressionError: disallowed construct"

/-- Whether the Python syntax tree of an expression string (before any
allow-list validation) contains a function-call node. -/
def parsedTreeHasCall (expression : String) : Bool :=
  match parseSyntax expression with
  | .ok e => containsCall e
  | .error _ => false

end ExpressionParser

namespace ExpressionEvaluator

open ExpressionParser

/-- Python truthiness (`bool(x)`). -/
def truthy : Value → Bool
  | .bool b => b
  | .int n => decide (n ≠ 0)
  | .str s => decide (s ≠ "")
  | .null => false
  | .list xs => !xs.isEmpty
  | .dict xs => !xs.isEmpty

/-- A value usable as a Python integer (`bool` is a subtype of `int`). -/
def asInt? : Value → Option Int
  | .int n => some n
  | .bool b => some (if b then 1 else 0)
  | _ => none

mutual

/-- Python `==` on the embedded values.  `bool` compares equal to the
corresponding `int`; values of unrelated types compare unequal.  Dict
equality is modelled entrywise in order (no verified property compares
dicts). -/
def pyEq : Value → Value → Bool
  | .int a, .int b => a == b
  | .int a, .bool b => a == (if b then 1 else 0)
  | .bool a, .int b => (if a then (1 : Int) else 0) == b
  | .bool a, .bool b => a == b
  | .str a, .str b => a == b
  | .null, .null => true
  | .list a, .list b => pyEqList a b
  | .dict a, .dict b => pyEqEntries a b
  | _, _ => false

def pyEqList : List Value → List Value → Bool
  | [], [] => true
  | x :: xs, y :: ys => pyEq x y && pyEqList xs ys
  | _, _ => false

def pyEqEntries : List (String × Value) → List (String × Value) → Bool
  | [], [] => true
  | (k, v) :: xs, (k', v') :: ys => k == k' && pyEq v v' && pyEqEntries xs ys
  | _, _ => false

end

/-- Order comparison on Python ints. -/
def intCmpB (op : CmpOp) (x y : Int) : Bool :=
  match op with
  | .lt => decide (x < y)
  | .le => decide (x ≤ y)
  | .gt => decide (x > y)
  | .ge => decide (x ≥ y)
  | _ => false

/-- Order comparison on Python strings (lexicographic). -/
def strCmpB (op : CmpOp) (x y : String) : Bool :=
  match op with
  | .lt => decide (x < y)
  | .le => decide (x ≤ y)
  | .gt => decide (y < x)
  | .ge => decide (y ≤ x)
  | _ => false

/-- Python `in`. -/
def pyIn (a b : Value) : Except String Bool :=
  match b with
  | .list xs => .ok (xs.any (fun x => pyEq a x))
  | .str s =>
    match a with
    | .str sub => .ok (listContainsSeq sub.data s.data)
    | _ => .error "TypeError: in <string> requires string as left operand"
  | .dict d => .ok (match a with | .str k => dictHas d k | _ => false)
  | _ => .error "TypeError: argument is not iterable"

/-- One comparison operator applied to two values, Python-style:
equality never raises, order comparison raises on unrelated types. -/
def pyCmpOp (op : CmpOp) (a b : Value) : Except String Bool :=
  match op with
  | .eq => .ok (pyEq a b)
  | .ne => .ok (!pyEq a b)
  | .isIn => pyIn a b
  | .notIn => do
    let r ← pyIn a b
    .ok (!r)
  | _ =>
    match asInt? a, asInt? b with
    | some x, some y => .ok (intCmpB op x y)
    | _, _ =>
      match a, b with
      | .str x, .str y => .ok (strCmpB op x y)
      | _, _ => .error "TypeError: unorderable types"

/-- Integer arithmetic helper. -/
def intArith (f : Int → Int → Int) (a b : Value) : Except String Value :=
  match asInt? a, asInt? b with
  | some x, some y => .ok (.int (f x y))
  | _, _ => .error "TypeError: unsupported operand types"

/-- Python binary operators on the embedded values.  `/` always returns
a float in Python 3, which the value universe does not carry, so it
reports an error; the bitwise operators are rejected by the AST
validator before evaluation can reach them. -/
def pyBin (op : BinOpK) (a b : Value) : Except String Value :=
  match op with
  | .add =>
    match a, b with
    | .str x, .str y => .ok (.str (x ++ y))
    | .list x, .list y => .ok (.list (x ++ y))
    | _, _ => intArith (· + ·) a b
  | .sub => intArith (· - ·) a b
  | .mult => intArith (· * ·) a b
  | .div => .error "float result not modelled"
  | .mod =>
    match asInt? a, asInt? b with
    | some x, some y =>
      if y = 0 then .error "ZeroDivisionError"
      else .ok (.int (Int.fmod x y))
    | _, _ => .error "TypeError: unsupported operand types"
  | .pow =>
    match asInt? a, asInt? b with
    | some x, some y =>
      if y < 0 then .error "float result not modelled"
      else .ok (.int (x ^ y.toNat))
    | _, _ => .error "TypeError: unsupported operand types"
  | _ => .error "bitwise operator rejected before evaluation"

/-- Python subscription `v[ix]` on the embedded values. -/
def pySubscript (v ix : Value) : Except String Value :=
  match v with
  | .list xs =>
    match asInt? ix with
    | some i =>
      let i' := if i < 0 then i + xs.length else i
      if 0 ≤ i' ∧ i'.toNat < xs.length then .ok (xs.getD i'.toNat .null)
      else .error "IndexError: list index out of range"
    | none => .error "TypeError: list indices must be integers"
  | .dict d =>
    match ix with
    | .str k =>
      match dictGet? d k with
      | some x => .ok x
      | none => .error ("KeyError: " ++ k)
    | _ => .error "KeyError"
  | .str s =>
    match asInt? ix with
    | some i =>
      let cs := s.data
      let i' := if i < 0 then i + cs.length else i
      if 0 ≤ i' ∧ i'.toNat < cs.length then .ok (.str (String.mk [cs.getD i'.toNat ' ']))
      else .error "IndexError: string index out of range"
    | none => .error "TypeError: string indices must be integers"
  | _ => .error "TypeError: object is not subscriptable"

mutual

/-- CPython `eval` of a validated expression tree against globals
holding the context variables: name lookup (an absent name is a
`NameError`; bare builtin function names such as `len` matter only
inside calls, which parsing rejects, and are not modelled), attribute
access on the embedded data values always raises `AttributeError`
(matching `eval` on dict/list/int context values), short-circuit
boolean chains returning the deciding operand, chained comparisons,
unary and binary operators.  Fuel bounds the recursion depth; any fuel
at least the tree size behaves identically. -/
def evalExpr (ctx : List (String × Value)) : Nat → PyExpr → Except String Value
  | 0, _ => .error "RecursionError"
  | n + 1, e =>
    match e with
    | .name id =>
      match dictGet? ctx id with
      | some v => .ok v
      | none => .error ("NameError: name is not defined: " ++ id)
    | .numC k => .ok (.int k)
    | .strC s => .ok (.str s)
    | .boolC b => .ok (.bool b)
    | .noneC => .ok .null
    | .listE xs => do
      let vs ← evalList ctx n xs
      .ok (.list vs)
    | .attr _ a => .error ("AttributeError: " ++ a)
    | .subscript v ix => do
      let vv ← evalExpr ctx n v
      let iv ← evalExpr ctx n ix
      pySubscript vv iv
    | .call _ _ => .error "calls are rejected before evaluation"
    | .boolop op vals => evalBoolChain ctx op n vals
    | .unop .notOp v => do
      let vv ← evalExpr ctx n v
      .ok (.bool (!truthy vv))
    | .unop .usub v => do
      let vv ← evalExpr ctx n v
      match asInt? vv with
      | some x => .ok (.int (-x))
      | none => .error "TypeError: bad operand type for unary -"
    | .unop .uadd v => do
      let vv ← evalExpr ctx n v
      match asInt? vv with
      | some x => .ok (.int x)
      | none => .error "TypeError: bad operand type for unary +"
    | .binop l op r => do
      let lv ← evalExpr ctx n l
      let rv ← evalExpr ctx n r
      pyBin op lv rv
    | .compare l pairs => do
      let lv ← evalExpr ctx n l
      evalCmpChain ctx n lv pairs

def evalList (ctx : List (String × Value)) : Nat → List PyExpr → Except String (List Value)
  | 0, _ => .error "RecursionError"
  | _ + 1, [] => .ok []
  | n + 1, x :: xs => do
    let v ← evalExpr ctx n x
    let vs ← evalList ctx n xs
    .ok (v :: vs)

def evalBoolChain (ctx : List (String × Value)) (op : BoolOpK) :
    Nat → List PyExpr → Except String Value
  | 0, _ => .error "RecursionError"
  | _ + 1, [] => .error "empty BoolOp"
  | n + 1, [v] => evalExpr ctx n v
  | n + 1, v :: vs => do
    let vv ← evalExpr ctx n v
    if (match op with | .andOp => !truthy vv | .orOp => truthy vv) then .ok vv
    else evalBoolChain ctx op n vs

def evalCmpChain (ctx : List (String × Value)) :
    Nat → Value → List (CmpOp × PyExpr) → Except String Value
  | 0, _, _ => .error "RecursionError"
  | _ + 1, _, [] => .ok (.bool true)
  | n + 1, cur, (op, re) :: rest => do
    let rv ← evalExpr ctx n re
    let b ← pyCmpOp op cur rv
    if b then evalCmpChain ctx n rv rest else .ok (.bool false)

end

/-- `ExpressionEvaluator.evaluate`: parse the expression, evaluate it
against globals made of the safe builtins plus the context, and coerce
the result with `bool(...)`.  Any raised error becomes `.error`
(`ExpressionError`). -/
def evaluate (expression : String) (context : List (String × Value)) :
    Except String Bool := do
  let tree ← ExpressionParser.parse expression
  let v ← evalExpr context (exprSize tree + 1) tree
  .ok (truthy v)

end ExpressionEvaluator

/-! ## Template engine (`templating.py`)

`PetalTemplateEngine.render_single_pass` first rejects "nested
template" patterns (`_has_nested_templates`, four `re.search`es with
`re.IGNORECASE`), then renders through the constrained Jinja2
environment.  The regex search is embedded below; Jinja2 rendering is
an external library, embedded for the fragment these templates use:
plain text passes through unchanged after the lexer's newline
normalisation (`str.splitlines` joined with `"\n"`, dropping a single
trailing newline since `keep_trailing_newline` is False), `{# … #}`
comments are dropped, `{{ name }}` substitutes a context variable
(`StrictUndefined`: an absent variable raises), and `{% … %}` block
statements are outside the modelled fragment.  `trim_blocks` and
`lstrip_blocks` only affect block tags. -/

/-- Case-insensitive character match as `re.IGNORECASE` applies to the
ASCII patterns involved: equal characters match, and two letters match
when they agree up to case. -/
def charEqCI (a b : Char) : Bool :=
  a == b || (a.isAlpha && b.isAlpha && a.toLower == b.toLower)

/-- Case-insensitive prefix test. -/
def ciPrefix : List Char → List Char → Bool
  | [], _ => true
  | _ :: _, [] => false
  | p :: ps, c :: cs => charEqCI p c && ciPrefix ps cs

/-- Find a literal regex piece within the current line (a gap crossed by
`.` in the pattern, which does not match `'\n'`), returning the suffix
after the first occurrence. -/
def gapFind (p : List Char) : List Char → Option (List Char)
  | [] => if p.isEmpty then some [] else none
  | c :: cs =>
    if ciPrefix p (c :: cs) then some ((c :: cs).drop p.length)
    else if c = '\n' then none
    else gapFind p cs

/-- Match the remaining literal pieces of a `X.*Y.*Z` pattern after the
first piece, each gap confined to the current line. -/
def chainPieces : List (List Char) → List Char → Bool
  | [], _ => true
  | p :: ps, s =>
    match gapFind p s with
    | some rest => chainPieces ps rest
    | none => false

/-- `re.search` for a pattern of literal pieces separated by `.*`: try
the first piece at every position of the string (a match may start
anywhere); the later pieces follow within the same line. -/
def searchFirst (p : List Char) (rest : List (List Char)) : List Char → Bool
  | [] => false
  | c :: cs =>
    (ciPrefix p (c :: cs) && chainPieces rest ((c :: cs).drop p.length)) ||
      searchFirst p rest cs

/-- `re.search` over a nonempty piece list. -/
def searchPieces : List (List Char) → List Char → Bool
  | [], _ => true
  | p :: ps, s => searchFirst p ps s

namespace PetalTemplateEngine

/-- The four `nested_patterns` of `_has_nested_templates`, as their
literal pieces (the patterns are literals separated by `.*`). -/
def nestedPatterns : List (List (List Char)) :=
  [[['{', '{'], ['{', '{'], ['}', '}'], ['}', '}']],
   [['{', '{'], ['r', 'e', 'n', 'd', 'e', 'r'], ['}', '}']],
   [['{', '{'], ['i', 'n', 'c', 'l', 'u', 'd', 'e'], ['}', '}']],
   [['{', '{'], ['e', 'x', 't', 'e', 'n', 'd', 's'], ['}', '}']]]

/-- `PetalTemplateEngine._has_nested_templates`. -/
def has_nested_templates (template_str : List Char) : Bool :=
  nestedPatterns.any (fun ps => searchPieces ps template_str)

end PetalTemplateEngine

namespace ConstrainedJinjaEnvironment

/-- Python `str.splitlines` line-boundary characters (of the Unicode
set, those the lexer can meet here). -/
def isLineBreak (c : Char) : Bool :=
  c = '\n' || c = '\r' || c = '\x0b' || c = '\x0c' ||
  c = '\x1c' || c = '\x1d' || c = '\x1e' || c = '\x85' ||
  c = '\u2028' || c = '\u2029'

/-- After a `'\r'`, a following `'\n'` belongs to the same boundary. -/
def dropLf : List Char → List Char
  | '\n' :: rest => rest
  | rest => rest

/-- Python `str.splitlines` (with `\r\n` as a single boundary);
`cur` holds the reversed current line.  Fuel exceeding the input length
suffices: every step consumes at least one input character. -/
def splitLinesAux : Nat → List Char → List Char → List (List Char)
  | 0, cur, _ => if cur.isEmpty then [] else [cur.reverse]
  | _ + 1, cur, [] => if cur.isEmpty then [] else [cur.reverse]
  | fuel + 1, cur, c :: rest =>
    if c = '\r' then cur.reverse :: splitLinesAux fuel [] (dropLf rest)
    else if isLineBreak c then cur.reverse :: splitLinesAux fuel [] rest
    else splitLinesAux fuel (c :: cur) rest

/-- Concatenate lines with `"\n"` (the environment's
`newline_sequence`). -/
def joinNl : List (List Char) → List Char
  | [] => []
  | [l] => l
  | l :: ls => l ++ '\n' :: joinNl ls

/-- The Jinja2 lexer's source normalisation:
`"\n".join(source.splitlines())` — all line boundaries become `"\n"`
and, `keep_trailing_newline` being False, a single trailing newline is
dropped. -/
def normalizeNewlines (s : List Char) : List Char :=
  joinNl (splitLinesAux (s.length + 1) [] s)

/-- Strip surrounding whitespace of a `{{ … }}` payload. -/
def trimChars (w : List Char) : List Char :=
  ((w.dropWhile isPySpace).reverse.dropWhile isPySpace).reverse

/-- The payload is a plain Python identifier. -/
def isIdentList : List Char → Bool
  | [] => false
  | c :: cs => (c.isAlpha || c = '_') && cs.all isWordChar

/-- Scan to a closing delimiter, returning (content, rest-after). -/
def scanToClose (close : List Char) : List Char → Option (List Char × List Char)
  | [] => none
  | c :: cs =>
    if close.isPrefixOf (c :: cs) then some ([], (c :: cs).drop close.length)
    else match scanToClose close cs with
      | some (w, r) => some (c :: w, r)
      | none => none

/-- Jinja string form of a substituted value.  No verified property
renders a non-scalar value. -/
def jinjaStr : Value → String
  | .str s => s
  | .int n => toString n
  | .bool b => if b then "True" else "False"
  | .null => "None"
  | .list _ => "[…]"
  | .dict _ => "\x7b…\x7d"

/-- The rendering scan over normalised source: text passes through,
`{{ name }}` substitutes (absent name: `StrictUndefined` error,
non-identifier payloads are outside the modelled fragment), `{# … #}`
comments are dropped, `{% … %}` is outside the modelled fragment.
Fuel exceeding the input length suffices: every step consumes at least
one character. -/
def renderAux (ctx : List (String × Value)) : Nat → List Char → Except String (List Char)
  | 0, _ => .error "render fuel exhausted"
  | _ + 1, [] => .ok []
  | n + 1, c :: cs =>
    if c = '{' then
      match cs with
      | c2 :: cs2 =>
        if c2 = '{' then
          match scanToClose ['}', '}'] cs2 with
          | none => .error "TemplateSyntaxError: unexpected end of template"
          | some (w, rest) =>
            let wt := trimChars w
            if isIdentList wt then
              match dictGet? ctx (String.mk wt) with
              | some v => do
                let tail ← renderAux ctx n rest
                .ok ((jinjaStr v).data ++ tail)
              | none => .error "UndefinedError: variable is undefined"
            else .error "jinja expression outside the modelled fragment"
        else if c2 = '%' then .error "jinja block statement outside the modelled fragment"
        else if c2 = '#' then
          match scanToClose ['#', '}'] cs2 with
          | none => .error "TemplateSyntaxError: unexpected end of template"
          | some (_, rest) => renderAux ctx n rest
        else do
          let tail ← renderAux ctx n cs
          .ok (c :: tail)
      | [] => do
        let tail ← renderAux ctx n cs
        .ok (c :: tail)
    else do
      let tail ← renderAux ctx n cs
      .ok (c :: tail)

/-- `ConstrainedJinjaEnvironment.render`: Jinja2
`from_string(template_str).render(**context)`, failures becoming
`PetalTemplateError` (`.error`). -/
def render (ctx : List (String × Value)) (template_str : List Char) :
    Except String (List Char) :=
  let src := normalizeNewlines template_str
  renderAux ctx (src.length + 1) src

end ConstrainedJinjaEnvironment

namespace PetalTemplateEngine

/-- `PetalTemplateEngine.render_single_pass`. -/
def render_single_pass (ctx : List (String × Value)) (template_str : List Char) :
    Except String (List Char) :=
  if has_nested_templates template_str then
    .error "Nested template rendering is not allowed"
  else ConstrainedJinjaEnvironment.render ctx template_str

/-- The condition the amended round-trip property needs: the template
contains none of the Jinja opening markers (no `{` immediately followed
by `{`, `%` or `#`) and no line-boundary character (those are rewritten
by the lexer's newline normalisation). -/
def plainText : List Char → Bool
  | [] => true
  | c :: cs =>
    (if c = '{' then
      match cs with
      | c2 :: _ => !(c2 = '{' || c2 = '%' || c2 = '#')
      | [] => true
     else true) &&
    !ConstrainedJinjaEnvironment.isLineBreak c && plainText cs

end PetalTemplateEngine

/-! ## Dataclass workflow model (`models.py`) and validator (`validator.py`)

The validator operates on the dataclass-based model (`Petal`,
`StepBase`, `IODecl`), not on the Pydantic `PetalFile` the executor
uses.  Fields whose dataclass types are `Literal[...]` enumerations are
carried as `String` (their `__post_init__` range checks belong to
parsing, which no verified property exercises). -/

/-- `models.py` `Param`. -/
structure Param where
  type : String
  required : Bool := false
  default : Option Value := none
  help : Option String := none

/-- `models.py` `IODecl`. -/
structure IODecl where
  type : Option String := none
  required : Bool := false
  json_schema : Option (List (String × Value)) := none
  from_ : Option String := none
  path : Option String := none

/-- `models.py` `StepBase`. -/
structure StepBase where
  id : String
  uses : String
  needs : List String := []
  if_ : Option String := none
  timeout : Option String := none
  retries : Option (List (String × Value)) := none
  env : Option (List (String × String)) := none
  inputs : List (String × IODecl) := []
  outputs : List (String × IODecl) := []
  cache : Option (List (String × Value)) := none
  resources : Option (List (String × Value)) := none
  adapter : Option String := none
  with_ : Option (List (String × Value)) := none

/-- `models.py` `Petal` (the top-level dataclass workflow). -/
structure PetalWorkflow where
  petal : String := "1"
  name : String
  description : Option String := none
  «extends» : Option String := none
  composition_enabled : Bool := true
  params : List (String × Param) := []
  env : List (String × String) := []
  vars : List (String × String) := []
  steps : List StepBase := []
  outputs : List (List (String × Value)) := []
  on_error : List StepBase := []
  artifacts : Option (List (String × Value)) := none

/-- Python `type(x).__name__` on the embedded values. -/
def typeName : Value → String
  | .str _ => "str"
  | .int _ => "int"
  | .bool _ => "bool"
  | .null => "NoneType"
  | .list _ => "list"
  | .dict _ => "dict"

/-- Python `f"{type(x)}"`. -/
def typeRepr (v : Value) : String := "<class '" ++ typeName v ++ "'>"

/-- Python `str(x)` as interpolated into the validator's messages.
Non-scalar renderings are abridged; no verified property prints one. -/
def pyStrScalar : Value → String
  | .str s => s
  | .int n => toString n
  | .bool b => if b then "True" else "False"
  | .null => "None"
  | .list _ => "[…]"
  | .dict _ => "\x7b…\x7d"

namespace PetalValidator

/-- `step_lookup = {step.id: step for step in petal.steps}`. -/
def buildLookup (steps : List StepBase) : List (String × StepBase) :=
  steps.foldl (fun d s => dictSet d s.id s) []

mutual

/-- The recursive `dfs` closure of `_detect_cycles`: the mutated
`errors`/`visited` sets are returned, the `rec_stack` add/remove pair
is value passing (the stack holds exactly the ids pushed on the current
chain).  A revisit of an in-progress id emits
`"Cycle detected: " + " -> ".join(path[path.index(id):] + [id])`.
Fuel bounds the recursion depth; the caller supplies more fuel than ids
can ever be pushed (each pushed id is fresh in `visited`), so the
zero-fuel branch is unreachable from `detect_cycles`. -/
def dfs (lookup : List (String × StepBase)) :
    Nat → String → List String → List String → List String →
    List String × List String
  | 0, _, _, visited, _ => ([], visited)
  | fuel + 1, step_id, path, visited, rec_stack =>
    if pyMem step_id rec_stack then
      let cycle_path := path.drop (pyIndex step_id path) ++ [step_id]
      (["Cycle detected: " ++ pyJoin " -> " cycle_path], visited)
    else if pyMem step_id visited then ([], visited)
    else
      let visited := visited ++ [step_id]
      let rec_stack := rec_stack ++ [step_id]
      match dictGet? lookup step_id with
      | some step => dfsNeeds lookup fuel step.needs (path ++ [step_id]) visited rec_stack
      | none => ([], visited)

/-- The `for needed_step in step.needs` loop inside `dfs`. -/
def dfsNeeds (lookup : List (String × StepBase)) :
    Nat → List String → List String → List String → List String →
    List String × List String
  | 0, _, _, visited, _ => ([], visited)
  | _ + 1, [], _, visited, _ => ([], visited)
  | fuel + 1, n :: ns, path, visited, rec_stack =>
    let r1 := dfs lookup fuel n path visited rec_stack
    let r2 := dfsNeeds lookup fuel ns path r1.2 rec_stack
    (r1.1 ++ r2.1, r2.2)

end

/-- `PetalValidator._detect_cycles`: run `dfs` from every not-yet
visited step, accumulating errors and the visited set.  Along any call
chain the fuel drops by one per pushed id (at most one per step id or
`needs` entry) and one per traversed `needs` list element, so the
budget below keeps the zero-fuel branches unreachable. -/
def detect_cycles (steps : List StepBase) (lookup : List (String × StepBase)) :
    List String :=
  let fuel := steps.length + 2 * (steps.map (fun s => s.needs.length)).sum + 3
  (steps.foldl
    (fun (acc : List String × List String) step =>
      if pyMem step.id acc.2 then acc
      else
        let r := dfs lookup fuel step.id [] acc.2 []
        (acc.1 ++ r.1, r.2))
    ([], [])).1

/-- `PetalValidator._validate_dag`. -/
def validate_dag (p : PetalWorkflow) : List String :=
  let step_lookup := buildLookup p.steps
  let missing_deps := p.steps.flatMap (fun step =>
    step.needs.filterMap (fun needed_step =>
      if dictHas step_lookup needed_step then none
      else some ("Step '" ++ step.id ++ "' depends on missing step '" ++
        needed_step ++ "'")))
  missing_deps ++ detect_cycles p.steps step_lookup

/-- The first loop of `_validate_inputs_outputs`: build the
output-producers map, emitting a duplicate-producer error whenever an
output name is already mapped. -/
def outputProducers (steps : List StepBase) :
    List String × List (String × String) :=
  steps.foldl
    (fun acc step =>
      step.outputs.foldl
        (fun (acc2 : List String × List (String × String)) out =>
          match dictGet? acc2.2 out.1 with
          | some prev =>
            (acc2.1 ++ ["Output '" ++ out.1 ++ "' is produced by multiple steps: " ++
              prev ++ " and " ++ step.id], acc2.2)
          | none => (acc2.1, acc2.2 ++ [(out.1, step.id)]))
        acc)
    ([], [])

/-- `PetalValidator._validate_inputs_outputs`. -/
def validate_inputs_outputs (p : PetalWorkflow) : List String :=
  let r := outputProducers p.steps
  let input_errs := p.steps.flatMap (fun step =>
    step.inputs.flatMap (fun inp =>
      match inp.2.from_ with
      | some f =>
        if f.startsWith "outputs." then
          let output_name := f.drop "outputs.".length
          match dictGet? r.2 output_name with
          | none =>
            ["Step '" ++ step.id ++ "' input '" ++ inp.1 ++
              "' references undefined output '" ++ output_name ++ "'"]
          | some producer_step =>
            if pyMem producer_step step.needs then []
            else
              ["Step '" ++ step.id ++ "' uses output '" ++ output_name ++
                "' from '" ++ producer_step ++ "' but doesn't declare dependency"]
        else []
      | none => []))
  r.1 ++ input_errs

/-- `PetalValidator._validate_types`. -/
def validate_types (p : PetalWorkflow) : List String :=
  p.steps.flatMap (fun step =>
    step.inputs.filterMap (fun inp =>
      if inp.2.type.isNone then
        some ("Step '" ++ step.id ++ "' input '" ++ inp.1 ++ "' must declare a type")
      else none) ++
    step.outputs.filterMap (fun out =>
      if out.2.type.isNone then
        some ("Step '" ++ step.id ++ "' output '" ++ out.1 ++ "' must declare a type")
      else none))

/-- `cpu.replace(".", "").isdigit()`. -/
def cpuDigitsOk (s : String) : Bool :=
  let t := s.data.filter (fun c => c ≠ '.')
  !t.isEmpty && t.all Char.isDigit

/-- `PetalValidator._validate_cpu_resource`. -/
def validate_cpu_resource (step : StepBase) : List String :=
  match step.resources with
  | none => []
  | some res =>
    match dictGet? res "cpu" with
    | none => []
    | some cpu =>
      match cpu with
      | .str s =>
        if cpuDigitsOk s then []
        else ["Step '" ++ step.id ++ "' CPU must be a number, got '" ++ s ++ "'"]
      | .bool _ => ["Step '" ++ step.id ++ "' CPU must be a number, got boolean"]
      | _ => []

/-- `re.match(r"^\d+[KMGT]i?$", mem)`: one or more digits, a unit
letter, an optional `i`; the `$` anchor also accepts one trailing
newline. -/
def memTailOk : List Char → Bool
  | [u] => ['K', 'M', 'G', 'T'].contains u
  | [u, 'i'] => ['K', 'M', 'G', 'T'].contains u
  | [u, '\n'] => ['K', 'M', 'G', 'T'].contains u
  | [u, 'i', '\n'] => ['K', 'M', 'G', 'T'].contains u
  | _ => false

def memFormatOk (s : String) : Bool :=
  !(s.data.takeWhile Char.isDigit).isEmpty &&
    memTailOk (s.data.dropWhile Char.isDigit)

/-- `PetalValidator._validate_memory_resource`. -/
def validate_memory_resource (step : StepBase) : List String :=
  match step.resources with
  | none => []
  | some res =>
    match dictGet? res "mem" with
    | none => []
    | some mem =>
      match mem with
      | .str s =>
        if memFormatOk s then []
        else ["Step '" ++ step.id ++ "' memory must be in format like '1G', '512M', got '" ++ s ++ "'"]
      | .int v => ["Step '" ++ step.id ++ "' memory must be a string, got " ++ typeName (.int v)]
      | .bool v => ["Step '" ++ step.id ++ "' memory must be a string, got " ++ typeName (.bool v)]
      | _ => []

/-- `PetalValidator._validate_gpu_resource`.  Python `bool` is a
subclass of `int`, so a boolean `gpu` passes the `isinstance` check and
is never negative. -/
def validate_gpu_resource (step : StepBase) : List String :=
  match step.resources with
  | none => []
  | some res =>
    match dictGet? res "gpu" with
    | none => []
    | some gpu =>
      match gpu with
      | .int n =>
        if n < 0 then
          ["Step '" ++ step.id ++ "' GPU must be a non-negative integer, got " ++
            pyStrScalar (.int n)]
        else []
      | .bool _ => []
      | v =>
        ["Step '" ++ step.id ++ "' GPU must be a non-negative integer, got " ++
          pyStrScalar v]

/-- `PetalValidator._validate_network_resource`. -/
def validate_network_resource (step : StepBase) : List String :=
  match step.resources with
  | none => []
  | some res =>
    match dictGet? res "network" with
    | none => []
    | some network =>
      match network with
      | .bool _ => []
      | v => ["Step '" ++ step.id ++ "' network must be a boolean, got " ++ typeRepr v]

/-- `PetalValidator._validate_step_resources`. -/
def validate_step_resources (step : StepBase) : List String :=
  match step.resources with
  | none => []
  | some res =>
    (if dictHas res "cpu" then validate_cpu_resource step else []) ++
    (if dictHas res "mem" then validate_memory_resource step else []) ++
    (if dictHas res "gpu" then validate_gpu_resource step else []) ++
    (if dictHas res "network" then validate_network_resource step else [])

/-- `PetalValidator._validate_resources`: `if step.resources:` — the
Python truthiness test skips both `None` and an empty dict. -/
def validate_resources (p : PetalWorkflow) : List String :=
  p.steps.flatMap (fun step =>
    match step.resources with
    | none => []
    | some res => if res.isEmpty then [] else validate_step_resources step)

/-- `PetalValidator._validate_cache`.  The message interpolates the
`valid_policies` set, whose Python `repr` order is hash-dependent; a
fixed order is used here (no verified property reads this message). -/
def validate_cache (p : PetalWorkflow) : List String :=
  p.steps.flatMap (fun step =>
    match step.cache with
    | none => []
    | some cache =>
      match dictGet? cache "policy" with
      | none => []
      | some policy =>
        let ok := match policy with
          | .str s => ["auto", "never", "read-only", "write-only"].contains s
          | _ => false
        if ok then []
        else
          ["Step '" ++ step.id ++
            "' cache policy must be one of \x7b'auto', 'never', 'read-only', 'write-only'\x7d, got '" ++
            pyStrScalar policy ++ "'"])

/-- The `valid_adapters` table of `_validate_adapters`. -/
def valid_adapters : List (String × List String) :=
  [("shell", ["process", "docker"]),
   ("python", ["process", "docker", "python"]),
   ("llm", ["http"]),
   ("tool", ["process", "docker", "python", "http"]),
   ("human", []),
   ("foreach", []),
   ("include", [])]

/-- `PetalValidator._validate_adapters`.  `if not step.adapter:` is a
truthiness test, so an empty-string adapter is also skipped.  The
"can only use" message interpolates `list(allowed_adapters)` whose
order is hash-dependent; the table order is used here (no verified
property reads this message). -/
def validate_adapters (p : PetalWorkflow) : List String :=
  p.steps.flatMap (fun step =>
    match step.adapter with
    | none => []
    | some a =>
      if a = "" then []
      else
        match dictGet? valid_adapters step.uses with
        | none => []
        | some allowed =>
          if ["human", "foreach", "include"].contains step.uses then
            ["Step '" ++ step.id ++ "' " ++ step.uses ++ " step cannot use adapters"]
          else if allowed.contains a then []
          else
            ["Step '" ++ step.id ++ "' " ++ step.uses ++ " step can only use " ++
              toString allowed ++ " adapters, got '" ++ a ++ "'"])

/-- `PetalValidator.validate`: the six check families, accumulated in
order; `(len(errors) == 0, errors)`. -/
def validate (p : PetalWorkflow) : Bool × List String :=
  let errors :=
    validate_dag p ++ validate_inputs_outputs p ++ validate_types p ++
    validate_resources p ++ validate_cache p ++ validate_adapters p
  (errors.isEmpty, errors)

end PetalValidator

/-! ## Concrete fixtures used by the verified properties -/

/-- A one-step workflow file: the step runs `uses` under error policy
`policy`, with no retry configuration. -/
def singleStepFile (wfname id uses policy : String) : PetalFile :=
  { name := wfname, steps := [{ id := id, uses := uses, if_error := policy }] }

/-- A tool that succeeds immediately, echoing a fixed result. -/
def echoTool : Tool :=
  { name := "debug.echo", execute := fun _ _ => .ok [("echoed", .bool true)] }

/-- A registry holding only `echoTool`. -/
def echoReg : Registry :=
  fun n => if n = "debug.echo" then some echoTool else none

/-- A one-step workflow whose step carries a guard that evaluates
false. -/
def guardedWf : PetalFile :=
  { name := "t",
    steps := [{ id := "g", uses := "debug.echo", «when» := some "False" }] }

/-- A one-step workflow whose step retries up to 3 attempts. -/
def retryStepFile (wfname id uses : String) (bf md : Nat) : PetalFile :=
  { name := wfname,
    steps := [{ id := id, uses := uses,
                retry := some { max_attempts := 3, backoff_factor := bf,
                                max_delay := md } }] }

/-- A two-step workflow with a mutual `needs` cycle between `a` and
`b`. -/
def twoCycleWorkflow (wfname a b : String) : PetalWorkflow :=
  { name := wfname,
    steps := [{ id := a, uses := "shell", needs := [b] },
              { id := b, uses := "shell", needs := [a] }] }

/-- A two-step workflow in which both steps declare the same output
name `n` (with a declared type, so no other check fires). -/
def dupOutputWorkflow (wfname n id1 id2 : String) : PetalWorkflow :=
  { name := wfname,
    steps := [{ id := id1, uses := "shell", outputs := [(n, { type := some "str" })] },
              { id := id2, uses := "shell", outputs := [(n, { type := some "str" })] }] }

/-! ## Shared lemmas about the embedded Python dict -/

theorem dictGet?_map_set (d : List (String × α)) (k : String) (v : α) :
    dictGet? (d.map (fun p => if p.1 == k then (k, v) else p)) k =
      if dictHas d k then some v else none := by
  induction d with
  | nil => simp [dictGet?, dictHas]
  | cons p d ih =>
    by_cases h : p.1 = k
    · have hfp : (if (p.1 == k) then ((k, v) : String × α) else p) = (k, v) := by
        simp [h]
      simp only [List.map_cons, hfp, dictGet?]
      rw [List.find?_cons_of_pos _ (by simp)]
      simp [dictHas, h]
    · have hfp : (if (p.1 == k) then ((k, v) : String × α) else p) = p := by
        simp [h]
      simp only [List.map_cons, hfp, dictGet?]
      rw [List.find?_cons_of_neg _ (by simpa using h)]
      simp only [dictGet?] at ih
      rw [ih]
      have hb : (p.1 == k) = false := by simp [h]
      simp only [dictHas, List.any_cons, hb, Bool.false_or]

theorem find?_eq_none_of_not_has (d : List (String × α)) (k : String)
    (h : dictHas d k = false) : d.find? (fun p => p.1 == k) = none := by
  rw [List.find?_eq_none]
  intro x hx
  intro hxk
  have : dictHas d k = true := by
    simp only [dictHas, List.any_eq_true]
    exact ⟨x, hx, hxk⟩
  simp [this] at h

/-- Writing a key then reading it back returns the written value. -/
theorem dictGet?_set_self (d : List (String × α)) (k : String) (v : α) :
    dictGet? (dictSet d k v) k = some v := by
  unfold dictSet
  by_cases h : dictHas d k
  · rw [if_pos h, dictGet?_map_set, if_pos h]
  · have hb : dictHas d k = false := by simpa using h
    rw [if_neg h]
    simp [dictGet?, List.find?_append, find?_eq_none_of_not_has d k hb, List.find?]

/-! ## A tree containing a call never passes the allow-list walk -/

namespace ExpressionParser

mutual

theorem astOK_false_of_call : ∀ (e : PyExpr), containsCall e = true → astOK e = false
  | .call _ _, _ => rfl
  | .listE xs, h => by
    simp only [containsCall] at h
    simp only [astOK]
    exact astOKList_false_of_call xs h
  | .attr v a, h => by
    simp only [containsCall] at h
    simp only [astOK, astOK_false_of_call v h, Bool.and_false]
  | .subscript v ix, h => by
    simp only [containsCall, Bool.or_eq_true] at h
    rcases h with hv | hix
    · simp only [astOK, astOK_false_of_call v hv, Bool.false_and]
    · simp only [astOK, astOK_false_of_call ix hix, Bool.and_false]
  | .boolop op vals, h => by
    simp only [containsCall] at h
    simp only [astOK]
    exact astOKList_false_of_call vals h
  | .unop op v, h => by
    simp only [containsCall] at h
    simp only [astOK, astOK_false_of_call v h, Bool.and_false]
  | .binop l op r, h => by
    simp only [containsCall, Bool.or_eq_true] at h
    rcases h with hl | hr
    · simp only [astOK, astOK_false_of_call l hl, Bool.false_and, Bool.and_false]
    · simp only [astOK, astOK_false_of_call r hr, Bool.and_false]
  | .compare l pairs, h => by
    simp only [containsCall, Bool.or_eq_true] at h
    rcases h with hl | hp
    · simp only [astOK, astOK_false_of_call l hl, Bool.false_and]
    · simp only [astOK, astOKPairs_false_of_call pairs hp, Bool.and_false]

theorem astOKList_false_of_call :
    ∀ (xs : List PyExpr), containsCallList xs = true → astOKList xs = false
  | x :: xs, h => by
    simp only [containsCallList, Bool.or_eq_true] at h
    rcases h with hx | hxs
    · simp only [astOKList, astOK_false_of_call x hx, Bool.false_and]
    · simp only [astOKList, astOKList_false_of_call xs hxs, Bool.and_false]

theorem astOKPairs_false_of_call :
    ∀ (xs : List (CmpOp × PyExpr)), containsCallPairs xs = true → astOKPairs xs = false
  | (op, x) :: xs, h => by
    simp only [containsCallPairs, Bool.or_eq_true] at h
    rcases h with hx | hxs
    · simp only [astOKPairs, astOK_false_of_call x hx, Bool.false_and]
    · simp only [astOKPairs, astOKPairs_false_of_call xs hxs, Bool.and_false]

end

end ExpressionParser

/-! ## Plain text renders unchanged -/

theorem charEqCI_lbrace (c : Char) : charEqCI '{' c = ('{' == c) := by
  have h : Char.isAlpha '{' = false := by decide
  simp [charEqCI, h]

theorem searchFirst_lbrace_false (rest : List (List Char)) :
    ∀ s : List Char, PetalTemplateEngine.plainText s = true →
      searchFirst ['{', '{'] rest s = false := by
  intro s
  induction s with
  | nil => intro _; rfl
  | cons c cs ih =>
    intro hp
    simp only [PetalTemplateEngine.plainText, Bool.and_eq_true] at hp
    obtain ⟨⟨hcond, _⟩, hcs⟩ := hp
    have hpre : ciPrefix ['{', '{'] (c :: cs) = false := by
      by_cases hc : c = '{'
      · subst hc
        rw [if_pos rfl] at hcond
        cases cs with
        | nil => simp [ciPrefix, charEqCI]
        | cons c2 cs2 =>
          have h2 : ¬(c2 = '{') := by
            intro e
            subst e
            simp at hcond
          simp only [ciPrefix, charEqCI_lbrace]
          have : ('{' == c2) = false := by simpa using fun e => h2 e.symm
          simp [this]
      · have : ('{' == c) = false := by simpa using fun e => hc e.symm
        simp [ciPrefix, charEqCI_lbrace, this]
    simp only [searchFirst, hpre, Bool.false_and, Bool.false_or]
    exact ih hcs

theorem has_nested_templates_false_of_plain (s : List Char)
    (hp : PetalTemplateEngine.plainText s = true) :
    PetalTemplateEngine.has_nested_templates s = false := by
  simp only [PetalTemplateEngine.has_nested_templates, PetalTemplateEngine.nestedPatterns,
    List.any_cons, List.any_nil, searchPieces]
  simp [searchFirst_lbrace_false _ s hp]

namespace ConstrainedJinjaEnvironment

theorem splitLinesAux_plain :
    ∀ (n : Nat) (s cur : List Char), s.length < n →
      (∀ c ∈ s, isLineBreak c = false) →
      splitLinesAux n cur s =
        if cur.isEmpty && s.isEmpty then [] else [cur.reverse ++ s] := by
  intro n
  induction n with
  | zero => intro s cur h _; omega
  | succ n ih =>
    intro s cur hl h
    cases s with
    | nil =>
      cases cur with
      | nil => simp [splitLinesAux]
      | cons a as => simp [splitLinesAux]
    | cons c cs =>
      have hc : isLineBreak c = false := h c (by simp)
      have hr : ¬(c = '\r') := by
        intro e
        subst e
        have ht : isLineBreak '\r' = true := by decide
        rw [ht] at hc
        exact Bool.noConfusion hc
      have hlen : cs.length < n := by simp at hl; omega
      simp only [splitLinesAux]
      rw [if_neg hr, if_neg (by simp [hc])]
      rw [ih cs (c :: cur) hlen (fun x hx => h x (by simp [hx]))]
      simp

theorem normalizeNewlines_plain (s : List Char)
    (h : ∀ c ∈ s, isLineBreak c = false) : normalizeNewlines s = s := by
  unfold normalizeNewlines
  rw [splitLinesAux_plain (s.length + 1) s [] (by omega) h]
  cases s with
  | nil => rfl
  | cons c cs => simp [joinNl]

theorem renderAux_plain (ctx : List (String × Value)) :
    ∀ (n : Nat) (s : List Char), PetalTemplateEngine.plainText s = true →
      s.length < n → renderAux ctx n s = .ok s := by
  intro n
  induction n with
  | zero => intro s _ h; omega
  | succ n ih =>
    intro s hp hl
    cases s with
    | nil => rfl
    | cons c cs =>
      simp only [PetalTemplateEngine.plainText, Bool.and_eq_true] at hp
      obtain ⟨⟨hcond, _⟩, hcs⟩ := hp
      have hlen : cs.length < n := by simp at hl; omega
      have hrec : renderAux ctx n cs = .ok cs := ih cs hcs hlen
      by_cases hc : c = '{'
      · subst hc
        rw [if_pos rfl] at hcond
        cases cs with
        | nil =>
          simp only [renderAux, if_pos rfl]
          rw [hrec]
          rfl
        | cons c2 cs2 =>
          have h2 : ¬(c2 = '{') := by intro e; subst e; simp at hcond
          have h3 : ¬(c2 = '%') := by intro e; subst e; simp at hcond
          have h4 : ¬(c2 = '#') := by intro e; subst e; simp at hcond
          simp only [renderAux, if_pos rfl, if_neg h2, if_neg h3, if_neg h4]
          rw [hrec]
          rfl
      · simp only [renderAux, if_neg hc]
        rw [hrec]
        rfl

end ConstrainedJinjaEnvironment

/-- Plain text has no line break characters. -/
theorem plainText_no_breaks :
    ∀ s : List Char, PetalTemplateEngine.plainText s = true →
      ∀ c ∈ s, ConstrainedJinjaEnvironment.isLineBreak c = false := by
  intro s
  induction s with
  | nil => intro _ c hc; cases hc
  | cons a as ih =>
    intro hp c hc
    simp only [PetalTemplateEngine.plainText, Bool.and_eq_true] at hp
    obtain ⟨⟨_, hnb⟩, has⟩ := hp
    rcases hc with _ | hc
    · simpa using hnb
    · exact ih has c (by assumption)

/-! ## Claim theorems -/

/-- C10: `WorkflowState.set_step_status` sets `current_step` to the
given step exactly when the new status is RUNNING and resets it to
`None` for every other status; consequently, after any call,
`current_step` only ever names a step whose recorded `step_status` is
RUNNING. -/
theorem current_step_tracks_running (ws : WorkflowState) (step_id : String)
    (status : StepStatus) :
    (ws.set_step_status step_id status).current_step
        = (if status = StepStatus.running then some step_id else none) ∧
    ∀ j, (ws.set_step_status step_id status).current_step = some j →
      dictGet? (ws.set_step_status step_id status).step_status j
        = some StepStatus.running := by
  refine ⟨rfl, ?_⟩
  intro j hj
  by_cases h : status = StepStatus.running
  · subst h
    simp [WorkflowState.set_step_status] at hj
    subst hj
    exact dictGet?_set_self ws.step_status step_id StepStatus.running
  · simp [WorkflowState.set_step_status, h] at hj

/-- Witness for C10 at a concrete state and step. -/
theorem current_step_tracks_running_witness :
    dictGet? ((WorkflowState.init "r" [] []).set_step_status "s"
      StepStatus.running).step_status "s" = some StepStatus.running :=
  (current_step_tracks_running (WorkflowState.init "r" [] [])
    "s" StepStatus.running).2 "s" (by rfl)

/-- C5: `PetalValidator.validate` returns a pair whose boolean is true
exactly when the error list is empty, and the error list is the
concatenation of the violations found by every check category
(dependencies/cycles, input-output, types, resources, cache, adapters)
— nothing stops at the first violation.  Being a total Lean function
of the workflow, the embedded `validate` also returns on every input
rather than raising. -/
theorem validate_accumulates_all_checks (p : PetalWorkflow) :
    (PetalValidator.validate p).2 =
        PetalValidator.validate_dag p ++ PetalValidator.validate_inputs_outputs p ++
        PetalValidator.validate_types p ++ PetalValidator.validate_resources p ++
        PetalValidator.validate_cache p ++ PetalValidator.validate_adapters p ∧
    ((PetalValidator.validate p).1 = true ↔ (PetalValidator.validate p).2 = []) := by
  refine ⟨rfl, ?_⟩
  simp [PetalValidator.validate, List.isEmpty_iff]

/-- C4: whenever the Python syntax tree of an expression string
contains a function-call node, `ExpressionParser.parse` raises an
`ExpressionError` — the rejection happens during the parse-time AST
walk, before and independent of any evaluation context. -/
theorem parse_rejects_function_calls (s : String)
    (h : ExpressionParser.parsedTreeHasCall s = true) :
    isOkE (ExpressionParser.parse s) = false := by
  unfold ExpressionParser.parsedTreeHasCall at h
  cases hp : ExpressionParser.parseSyntax s with
  | error e => rw [hp] at h; exact absurd h (by simp)
  | ok tree =>
    rw [hp] at h
    have hast := ExpressionParser.astOK_false_of_call tree h
    have hparse : ExpressionParser.parse s =
        (if ExpressionParser.astOK tree = true then Except.ok tree
         else Except.error "ExpressionError: disallowed construct") := by
      unfold ExpressionParser.parse
      rw [hp]
      rfl
    rw [hparse, hast]
    rfl

/-- Witness for C4: `os.system('x')` parses to a tree containing a call
and is rejected. -/
theorem parse_rejects_function_calls_witness :
    ExpressionParser.parsedTreeHasCall "os.system('x')" = true ∧
    isOkE (ExpressionParser.parse "os.system('x')") = false :=
  ⟨by decide, parse_rejects_function_calls "os.system('x')" (by decide)⟩

/-- Counterexample to C9 as stated: the template `{#x#}` contains no
`{{ }}` markers (neither `{{` nor `}}` occurs in it), yet
`render_single_pass` returns the empty string — Jinja strips the
`{# … #}` comment — not the input unchanged.  Likewise `"a\n"` has no
markers, but the Jinja lexer (`keep_trailing_newline=False`) drops the
trailing newline, rendering `"a"`. -/
theorem render_comment_template_changed :
    listContainsSeq ['{', '{'] "{#x#}".data = false ∧
    listContainsSeq ['}', '}'] "{#x#}".data = false ∧
    PetalTemplateEngine.render_single_pass [] "{#x#}".data = .ok [] ∧
    "{#x#}".data ≠ [] ∧
    listContainsSeq ['{', '{'] "a\n".data = false ∧
    listContainsSeq ['}', '}'] "a\n".data = false ∧
    PetalTemplateEngine.render_single_pass [] "a\n".data = .ok "a".data ∧
    "a\n".data ≠ "a".data := by
  refine ⟨by decide, by decide, ?_, by decide, by decide, by decide, ?_, by decide⟩
  · rfl
  · rfl

/-- C9 (amended): rendering a template that contains none of the Jinja
markers (`{{`, `{%`, `{#`) and no line-boundary characters returns the
input unchanged, for every context. -/
theorem render_plain_text_unchanged (ctx : List (String × Value)) (s : List Char)
    (hp : PetalTemplateEngine.plainText s = true) :
    PetalTemplateEngine.render_single_pass ctx s = .ok s := by
  unfold PetalTemplateEngine.render_single_pass
  rw [has_nested_templates_false_of_plain s hp]
  simp only [Bool.false_eq_true, if_false]
  unfold ConstrainedJinjaEnvironment.render
  rw [ConstrainedJinjaEnvironment.normalizeNewlines_plain s (plainText_no_breaks s hp)]
  exact ConstrainedJinjaEnvironment.renderAux_plain ctx (s.length + 1) s hp (by omega)

/-- Witness for the amended C9 at a concrete template and context. -/
theorem render_plain_text_unchanged_witness :
    PetalTemplateEngine.render_single_pass [] "hello world".data
      = .ok "hello world".data :=
  render_plain_text_unchanged [] "hello world".data (by decide)

/-- Counterexample to C1 as stated: a workflow whose only step names an
unregistered tool but carries `if_error="skip"` does NOT abort — the
"Tool not found" failure is caught by the step-loop error handler like
any other step failure, the step is marked skipped and the run
completes. -/
theorem tool_not_found_skip_not_fatal :
    (PetalExecutor.execute (fun _ => none)
        (singleStepFile "t" "step1" "unknown.tool" "skip") "run_1").1
      = .ok { run_id := "run_1", status := "completed",
              state := [], step_results := [] } ∧
    dictGet? ((PetalExecutor.execute (fun _ => none)
        (singleStepFile "t" "step1" "unknown.tool" "skip") "run_1").2.ws.step_status)
        "step1"
      = some StepStatus.skipped :=
  ⟨rfl, rfl⟩

/-- C1 (amended): for a step whose `uses` has no registered tool,
`execute` aborts the run with "Tool not found" under every `if_error`
policy except `skip`; under `skip` the failure is converted into a
skipped step and the run completes. -/
theorem tool_not_found_fatal_unless_skip (reg : Registry)
    (wfname id uses policy run_id : String) (htool : reg uses = none) :
    (policy = "skip" →
      (PetalExecutor.execute reg (singleStepFile wfname id uses policy) run_id).1
        = .ok { run_id := run_id, status := "completed",
                state := [], step_results := [] } ∧
      dictGet? ((PetalExecutor.execute reg
          (singleStepFile wfname id uses policy) run_id).2.ws.step_status) id
        = some StepStatus.skipped) ∧
    (policy ≠ "skip" →
      (PetalExecutor.execute reg (singleStepFile wfname id uses policy) run_id).1
        = .error ("Tool not found: " ++ uses)) := by
  constructor
  · intro hpol
    subst hpol
    constructor
    · simp [PetalExecutor.execute, PetalExecutor.execSteps, PetalExecutor.execute_step,
        singleStepFile, htool, WorkflowState.init, WorkflowState.set_step_status]
    · simp [PetalExecutor.execute, PetalExecutor.execSteps, PetalExecutor.execute_step,
        singleStepFile, htool, WorkflowState.init, WorkflowState.set_step_status,
        dictSet, dictHas, dictGet?, List.find?]
  · intro hpol
    by_cases h1 : policy = "fail"
    · subst h1
      simp [PetalExecutor.execute, PetalExecutor.execSteps, PetalExecutor.execute_step,
        singleStepFile, htool, WorkflowState.init, WorkflowState.set_step_status]
    · by_cases h2 : policy = "retry"
      · subst h2
        simp [PetalExecutor.execute, PetalExecutor.execSteps, PetalExecutor.execute_step,
          singleStepFile, htool, WorkflowState.init, WorkflowState.set_step_status]
      · simp [PetalExecutor.execute, PetalExecutor.execSteps, PetalExecutor.execute_step,
          singleStepFile, htool, h1, h2, hpol,
          WorkflowState.init, WorkflowState.set_step_status]

/-- Witness for the amended C1: a concrete unregistered tool under the
default `fail` policy aborts with "Tool not found". -/
theorem tool_not_found_fatal_witness :
    (PetalExecutor.execute (fun _ => none)
        (singleStepFile "t" "s1" "unknown.tool" "fail") "r").1
      = .error ("Tool not found: " ++ "unknown.tool") :=
  (tool_not_found_fatal_unless_skip (fun _ => none) "t" "s1" "unknown.tool"
    "fail" "r" rfl).2 (by decide)

/-- Evidence for C2 being violated by the code: the step's guard
(`when="False"`) evaluates to false under the expression evaluator, yet
`execute` still invokes the step's tool (exactly once) and marks the
step completed — the executor never consults the guard. -/
theorem guard_false_step_still_executes :
    ExpressionEvaluator.evaluate "False" [] = .ok false ∧
    (PetalExecutor.execute echoReg guardedWf "run_1").2.calls = 1 ∧
    dictGet? ((PetalExecutor.execute echoReg guardedWf "run_1").2.ws.step_status) "g"
      = some StepStatus.completed ∧
    (PetalExecutor.execute echoReg guardedWf "run_1").1
      = .ok { run_id := "run_1", status := "completed",
              state := [("echoed", Value.bool true)],
              step_results := [("g", [("echoed", Value.bool true)])] } :=
  ⟨rfl, rfl, rfl, rfl⟩

/-- C8: a single step with `retry.max_attempts = 3` against a tool
whose execute raises on its first two invocations and succeeds on the
third completes: the run reports status "completed", the step's status
is completed, and the tool was invoked exactly 3 times. -/
theorem retry_three_attempts_completes
    (toolf : Nat → StepConfig → Except String (List (String × Value)))
    (e0 e1 : String) (r : List (String × Value))
    (h0 : ∀ st, toolf 0 st = .error e0)
    (h1 : ∀ st, toolf 1 st = .error e1)
    (h2 : ∀ st, toolf 2 st = .ok r)
    (wfname id uses run_id : String) (bf md : Nat) :
    (PetalExecutor.execute
        (fun n => if n = uses then some { name := uses, execute := toolf } else none)
        (retryStepFile wfname id uses bf md) run_id).1
      = .ok { run_id := run_id, status := "completed",
              state := dictUpdate [] (WorkflowState.validate_state_values r),
              step_results := [(id, WorkflowState.validate_state_values r)] } ∧
    dictGet? ((PetalExecutor.execute
        (fun n => if n = uses then some { name := uses, execute := toolf } else none)
        (retryStepFile wfname id uses bf md) run_id).2.ws.step_status) id
      = some StepStatus.completed ∧
    (PetalExecutor.execute
        (fun n => if n = uses then some { name := uses, execute := toolf } else none)
        (retryStepFile wfname id uses bf md) run_id).2.calls = 3 := by
  refine ⟨?_, ?_, ?_⟩ <;>
    simp [PetalExecutor.execute, PetalExecutor.execSteps, PetalExecutor.execute_step,
      PetalExecutor.retryCall, PetalExecutor.callTool, retryStepFile,
      h0, h1, h2, WorkflowState.init, WorkflowState.set_step_status,
      WorkflowState.update_from_tool_result, WorkflowState.update,
      dictSet, dictHas, dictGet?, List.find?]

/-- Counterexample to C3 as stated: each documented Petal-operator
example from the claim is rejected by `ExpressionParser.parse` with an
`ExpressionError`.  `_convert_operators` rewrites `&&`/`||` only
between word characters (`\b&&\b` cannot match next to spaces), so the
space-separated forms reach Python's parser unconverted and fail; the
`"!" → "not"` replacement corrupts both `!=` (→ `not=`) and `!flag`
(→ `notflag`). -/
theorem petal_operator_spellings_rejected :
    isOkE (ExpressionParser.parse "params.a && params.b") = false ∧
    isOkE (ExpressionParser.parse "params.a || params.b") = false ∧
    isOkE (ExpressionParser.parse "!params.flag") = false ∧
    isOkE (ExpressionParser.parse "params.x != 1") = false :=
  ⟨rfl, rfl, rfl, rfl⟩

/-- C3 (amended): of the documented operator set, only the spellings
that coincide with Python survive `_convert_operators`: expressions
written with `and`/`or`/`not`/`==` (and the other Python-spelled
comparison operators) over the whitelisted namespaces parse without
`ExpressionError`, and `evaluate` returns the corresponding
conjunction, disjunction, negation and (in)equality of the context
values; the Petal spellings `&&`, `||`, `!`, `!=` are rejected at parse
time (see the counterexample). -/
theorem python_operator_spellings_work :
    isOkE (ExpressionParser.parse "params.a and params.b") = true ∧
    isOkE (ExpressionParser.parse "params.a or params.b") = true ∧
    isOkE (ExpressionParser.parse "not params.flag") = true ∧
    isOkE (ExpressionParser.parse "params.x == 1") = true ∧
    ExpressionEvaluator.evaluate "a and b"
      [("a", Value.bool true), ("b", Value.bool true)] = .ok true ∧
    ExpressionEvaluator.evaluate "a and b"
      [("a", Value.bool true), ("b", Value.bool false)] = .ok false ∧
    ExpressionEvaluator.evaluate "a or b"
      [("a", Value.bool false), ("b", Value.bool true)] = .ok true ∧
    ExpressionEvaluator.evaluate "not a" [("a", Value.bool false)] = .ok true ∧
    ExpressionEvaluator.evaluate "a == 1" [("a", Value.int 1)] = .ok true ∧
    ExpressionEvaluator.evaluate "not (a == 1)" [("a", Value.int 1)] = .ok false :=
  ⟨rfl, rfl, rfl, rfl, rfl, rfl, rfl, rfl, rfl, rfl⟩

/-- C6: in a workflow whose two steps need each other (`a` needs `b`,
`b` needs `a`), `validate` returns false and the error list contains
the cycle error; its path `a -> b -> a` is rooted at `a` — the first
repeated node in traversal order — and includes both step ids. -/
theorem two_step_cycle_detected (wfname a b : String) (hab : a ≠ b) :
    (PetalValidator.validate (twoCycleWorkflow wfname a b)).1 = false ∧
    ("Cycle detected: " ++ pyJoin " -> " [a, b, a])
      ∈ (PetalValidator.validate (twoCycleWorkflow wfname a b)).2 := by
  have hab' : (a == b) = false := by simp [hab]
  have hba' : (b == a) = false := by simp [Ne.symm hab]
  constructor <;>
    simp [PetalValidator.validate, PetalValidator.validate_dag,
      PetalValidator.buildLookup, PetalValidator.detect_cycles,
      PetalValidator.dfs, PetalValidator.dfsNeeds,
      PetalValidator.validate_inputs_outputs, PetalValidator.outputProducers,
      PetalValidator.validate_types, PetalValidator.validate_resources,
      PetalValidator.validate_cache, PetalValidator.validate_adapters,
      twoCycleWorkflow, dictSet, dictHas, dictGet?, List.find?,
      pyMem, pyIndex, pyJoin, hab', hba']

/-- Witness for C6 at concrete step ids. -/
theorem two_step_cycle_detected_witness :
    (PetalValidator.validate (twoCycleWorkflow "w" "A" "B")).1 = false ∧
    ("Cycle detected: " ++ pyJoin " -> " ["A", "B", "A"])
      ∈ (PetalValidator.validate (twoCycleWorkflow "w" "A" "B")).2 :=
  two_step_cycle_detected "w" "A" "B" (by decide)

/-- C7: in a workflow whose two (distinct) steps both declare the
output name `n`, `validate` returns false and the error list is exactly
one "produced by multiple steps" error naming both producing step
ids. -/
theorem duplicate_output_reported_once (wfname n id1 id2 : String)
    (h : id1 ≠ id2) :
    PetalValidator.validate (dupOutputWorkflow wfname n id1 id2)
      = (false, ["Output '" ++ n ++ "' is produced by multiple steps: " ++
          id1 ++ " and " ++ id2]) := by
  have h12 : (id1 == id2) = false := by simp [h]
  have h21 : (id2 == id1) = false := by simp [Ne.symm h]
  simp [PetalValidator.validate, PetalValidator.validate_dag,
    PetalValidator.buildLookup, PetalValidator.detect_cycles,
    PetalValidator.dfs, PetalValidator.dfsNeeds,
    PetalValidator.validate_inputs_outputs, PetalValidator.outputProducers,
    PetalValidator.validate_types, PetalValidator.validate_resources,
    PetalValidator.validate_cache, PetalValidator.validate_adapters,
    dupOutputWorkflow, dictSet, dictHas, dictGet?, List.find?,
    pyMem, pyIndex, h12, h21]

/-- Witness for C7 at concrete names. -/
theorem duplicate_output_reported_once_witness :
    PetalValidator.validate (dupOutputWorkflow "w" "out" "s1" "s2")
      = (false, ["Output '" ++ "out" ++ "' is produced by multiple steps: " ++
          "s1" ++ " and " ++ "s2"]) :=
  duplicate_output_reported_once "w" "out" "s1" "s2" (by decide)

/-- Witness for C8 with a concrete fail-twice-then-succeed tool. -/
theorem retry_three_attempts_witness :
    (PetalExecutor.execute
        (fun n => if n = "flaky" then
          some { name := "flaky",
                 execute := fun k _ =>
                   if k = 0 then .error "boom0"
                   else if k = 1 then .error "boom1"
                   else .ok [("out", Value.str "ok")] }
          else none)
        (retryStepFile "t" "r1" "flaky" 1 10) "run_1").2.calls = 3 :=
  (retry_three_attempts_completes
    (fun k _ => if k = 0 then .error "boom0"
                else if k = 1 then .error "boom1"
                else .ok [("out", Value.str "ok")])
    "boom0" "boom1" [("out", Value.str "ok")]
    (fun _ => rfl) (fun _ => rfl) (fun _ => rfl)
    "t" "r1" "flaky" "run_1" 1 10).2.2

end Petal
